import Mathlib

/-!
# Verification of the fintoolsom fixed-income core

Shallow embedding of the date/calendar engine (`fintoolsom/dates`), the
rate conventions (`fintoolsom/rates/Rates.py`), the zero-coupon curve state
layer (`fintoolsom/rates/ZeroCouponCurve.py`) and the bond layer
(`fintoolsom/fixedIncome/Bonds.py`), together with proofs settling the
frozen claims about them.

Modelling conventions:
* A Python `datetime.date` is represented by its proleptic-Gregorian
  ordinal (`date.toordinal()`, an integer; `0001-01-01` has ordinal 1).
  Year/month/day accessors are computed from the ordinal with the standard
  civil-calendar conversion; `mkDate` is its inverse.  Date comparison and
  `timedelta` arithmetic coincide with integer comparison and addition on
  ordinals.
* Python floats are idealized as exact rationals (`ℚ`) in the calendar,
  validation and loop-control layers, and as reals (`ℝ`) in the valuation
  layer (where `**` on non-integer exponents appears).  `round(x, n)` is
  Python's round-half-to-even, modelled exactly.
* Fallible Python code (exceptions) is modelled with `Except String`.
-/

/-! ## Date model (`datetime.date` as Gregorian ordinal) -/

/-- days-from-civil (Hinnant's algorithm with floor division), relative to
the epoch 1970-01-01. -/
def daysFromCivil (y m d : Int) : Int :=
  let ys : Int := if m ≤ 2 then y - 1 else y
  let era : Int := ys.fdiv 400
  let yoe : Int := ys - era * 400
  let doy : Int := (153 * (m + (if 2 < m then -3 else 9)) + 2).fdiv 5 + d - 1
  let doe : Int := yoe * 365 + yoe.fdiv 4 - yoe.fdiv 100 + doy
  era * 146097 + doe - 719468

/-- Python `date(y, m, d).toordinal()`: ordinal 1 is 0001-01-01. -/
def mkDate (y m d : Int) : Int :=
  daysFromCivil y m d + 719163

/-- civil-from-days (inverse of `daysFromCivil`), producing (year, month, day)
from an ordinal. -/
def civilFromOrdinal (ordinal : Int) : Int × Int × Int :=
  let z : Int := ordinal - 719163 + 719468
  let era : Int := z.fdiv 146097
  let doe : Int := z - era * 146097
  let yoe : Int := (doe - doe.fdiv 1460 + doe.fdiv 36524 - doe.fdiv 146096).fdiv 365
  let y : Int := yoe + era * 400
  let doy : Int := doe - (365 * yoe + yoe.fdiv 4 - yoe.fdiv 100)
  let mp : Int := (5 * doy + 2).fdiv 153
  let d : Int := doy - (153 * mp + 2).fdiv 5 + 1
  let m : Int := mp + (if mp < 10 then 3 else -9)
  (if m ≤ 2 then y + 1 else y, m, d)

/-- `date.year` -/
def dateYear (t : Int) : Int := (civilFromOrdinal t).1

/-- `date.month` -/
def dateMonth (t : Int) : Int := (civilFromOrdinal t).2.1

/-- `date.day` -/
def dateDay (t : Int) : Int := (civilFromOrdinal t).2.2

/-- `date.weekday()`: Monday = 0, ..., Sunday = 6.  Ordinal 1 (0001-01-01)
is a Monday in the proleptic Gregorian calendar. -/
def pyWeekday (t : Int) : Int := (t - 1) % 7

/-- `calendar.isleap(y)` -/
def isLeapYear (y : Int) : Bool := y.emod 4 = 0 ∧ (y.emod 100 ≠ 0 ∨ y.emod 400 = 0)

/-- `calendar.monthrange(y, m)[1]`: number of days of month `m` of year `y`. -/
def daysInMonth (y m : Int) : Int :=
  if m = 2 then (if isLeapYear y then 29 else 28)
  else if m = 4 ∨ m = 6 ∨ m = 9 ∨ m = 11 then 30
  else 31

/-! ## Stable sorting (model of Python `sorted(..., key=...)`)

Python's `sorted` is a stable sort; it is modelled by a structurally
recursive stable insertion sort (kernel-reducible, unlike `mergeSort`). -/

/-- Insert `a` after all elements with key less than or equal to `key a`. -/
def insertOrdered {α : Type} (key : α → Int) (a : α) : List α → List α
  | [] => [a]
  | b :: bs => if key b ≤ key a then b :: insertOrdered key a bs else a :: b :: bs

/-- Stable sort by integer key (model of Python `sorted(l, key=key)`). -/
def sortByKey {α : Type} (key : α → Int) (l : List α) : List α :=
  l.foldl (fun acc a => insertOrdered key a acc) []

/-! ## Day-count conventions (`fintoolsom/dates/date_counts.py`) -/

inductive DayCountConvention where
  | Actual
  | Days30A
  | Days30U
  | Days30E
  | Days30E_ISDA
deriving DecidableEq, Repr

/-- `_get_day_count_actual(start_date, end_date)` (scalar overload):
`(end_date - start_date).days`. -/
def _get_day_count_actual (start_date end_date : Int) : Int :=
  end_date - start_date

/-- `_get_day_count_30a(start_date, end_date)` (scalar overload). -/
def _get_day_count_30a (start_date end_date : Int) : Int :=
  let d1 := dateDay start_date
  let d2 := dateDay end_date
  let m1 := dateMonth start_date
  let m2 := dateMonth end_date
  let y1 := dateYear start_date
  let y2 := dateYear end_date
  let d1 := min d1 30
  let d2 := if d1 > 29 then min d2 30 else d2
  360 * (y2 - y1) + 30 * (m2 - m1) + (d2 - d1)

/-- `_get_day_count_30u(start_date, end_date)` (scalar overload). -/
def _get_day_count_30u (start_date end_date : Int) : Int :=
  let d1 := dateDay start_date
  let d2 := dateDay end_date
  let m1 := dateMonth start_date
  let m2 := dateMonth end_date
  let y1 := dateYear start_date
  let y2 := dateYear end_date
  let start_date_month_end_day := daysInMonth y1 m1
  let end_date_month_end_day := daysInMonth y2 m2
  let is_eom := d2 = end_date_month_end_day
  let start_date_last_day_of_february := m1 = 2 ∧ d1 = start_date_month_end_day
  let end_date_last_day_of_february := m2 = 2 ∧ d2 = end_date_month_end_day
  let d2 := if is_eom ∧ start_date_last_day_of_february ∧ end_date_last_day_of_february
            then 30 else d2
  let d1 := if is_eom ∧ start_date_last_day_of_february then 30 else d1
  let d2 := if d2 = 31 ∧ d1 = 30 then 30 else d2
  let d1 := if d1 = 31 then 30 else d1
  360 * (y2 - y1) + 30 * (m2 - m1) + (d2 - d1)

/-- `_get_day_count_30e(start_date, end_date)` (scalar overload), translated
verbatim: note the source assigns `d2 = min(d1, 30)` (reading `d1`, not
`d2`). -/
def _get_day_count_30e (start_date end_date : Int) : Int :=
  let d1 := dateDay start_date
  let _d2 := dateDay end_date
  let m1 := dateMonth start_date
  let m2 := dateMonth end_date
  let y1 := dateYear start_date
  let y2 := dateYear end_date
  let d1 := min d1 30
  let d2 := min d1 30
  360 * (y2 - y1) + 30 * (m2 - m1) + (d2 - d1)

/-- `_get_day_count_30e_isda(start_date, end_date)` (scalar overload). -/
def _get_day_count_30e_isda (start_date end_date : Int) : Int :=
  let d1 := dateDay start_date
  let d2 := dateDay end_date
  let m1 := dateMonth start_date
  let m2 := dateMonth end_date
  let y1 := dateYear start_date
  let y2 := dateYear end_date
  let start_date_month_end_day := daysInMonth y1 m1
  let end_date_month_end_day := daysInMonth y2 m2
  let d1 := if d1 = start_date_month_end_day then 30 else d1
  let d2 := if d2 = end_date_month_end_day ∧ m2 ≠ 2 then 30 else d2
  360 * (y2 - y1) + 30 * (m2 - m1) + (d2 - d1)

/-- `get_day_count(start_date, end_date, day_count_convention)` (scalar path;
the memoizing `_day_count_cache` is a pure memo over these pure functions and
is semantically transparent). -/
def get_day_count (start_date end_date : Int) : DayCountConvention → Int
  | .Actual => _get_day_count_actual start_date end_date
  | .Days30A => _get_day_count_30a start_date end_date
  | .Days30U => _get_day_count_30u start_date end_date
  | .Days30E => _get_day_count_30e start_date end_date
  | .Days30E_ISDA => _get_day_count_30e_isda start_date end_date

/-- `Modelled from the spec:` the 30E/360 day count as the spec states it
("clamp both days to ≤30, independently"); used only to compare against the
source's `_get_day_count_30e`. -/
def dayCount30eSpec (start_date end_date : Int) : Int :=
  360 * (dateYear end_date - dateYear start_date)
    + 30 * (dateMonth end_date - dateMonth start_date)
    + (min (dateDay end_date) 30 - min (dateDay start_date) 30)

/-! ## Holiday rules (`fintoolsom/dates/holidays.py`) -/

/-- `_easter_sunday(year)` (anonymous Gregorian computus; all divisions are
on non-negative operands, so Python `//`/`%` agree with `fdiv`/`emod`). -/
def _easter_sunday (year : Int) : Int :=
  let a := year.emod 19
  let b := year.fdiv 100
  let c := year.emod 100
  let d := b.fdiv 4
  let e := b.emod 4
  let f := (b + 8).fdiv 25
  let g := (b - f + 1).fdiv 3
  let h := (19 * a + b - d - g + 15).emod 30
  let i := c.fdiv 4
  let k := c.emod 4
  let l := (32 + 2 * e + 2 * i - h - k).emod 7
  let m := (a + 11 * h + 22 * l).fdiv 451
  let month := (h + l - 7 * m + 114).fdiv 31
  let day := (h + l - 7 * m + 114).emod 31 + 1
  mkDate year month day

/-- A `MonthDayRule(month, day, monday_adjustable)` payload, also used as the
element type of `ConsecutiveHolidaySandwichRule.consecutive_holiday_rules`. -/
structure MonthDaySpec where
  month : Int
  day : Int
  monday_adjustable : Bool := false
deriving DecidableEq, Repr

/-- `MonthDayRule.get_date(year)`. -/
def monthDayGetDate (r : MonthDaySpec) (year : Int) : Int :=
  let t := mkDate year r.month r.day
  if ¬r.monday_adjustable then t
  else
    let wd := pyWeekday t
    if 1 ≤ wd ∧ wd ≤ 3 then t + (4 - wd)
    else if wd = 4 then t + 3
    else t

/-- The closed set of `HolidayRule` subclasses. -/
inductive HolidayRule where
  | monthDay (spec : MonthDaySpec)
  | ordinalWeekWeekday (ordinal weekday month : Int)
  | lastWeekWeekday (weekday month : Int)
  | consecutiveHolidaySandwich (first second : MonthDaySpec)
  | mondayEaster
  | fridayEaster
deriving DecidableEq, Repr

/-- `HolidayRule.get_date(year)`.  Every subclass returns a date except
`ConsecutiveHolidaySandwichRule`, which returns `None` (modelled `none`)
when neither neighboring holiday falls on Tuesday/Thursday. -/
def ruleGetDate (rule : HolidayRule) (year : Int) : Option Int :=
  match rule with
  | .monthDay spec => some (monthDayGetDate spec year)
  | .ordinalWeekWeekday ordinal weekday month =>
      let first_day := mkDate year month 1
      let days_to_add := (weekday - pyWeekday first_day).emod 7
      some (first_day + days_to_add + 7 * (ordinal - 1))
  | .lastWeekWeekday weekday month =>
      let last_day := mkDate year month (daysInMonth year month)
      let days_to_subtract := (pyWeekday last_day - weekday).emod 7
      some (last_day - days_to_subtract)
  | .consecutiveHolidaySandwich first second =>
      if pyWeekday (monthDayGetDate first year) = 1 then
        some (monthDayGetDate first year - 1)
      else if pyWeekday (monthDayGetDate second year) = 3 then
        some (monthDayGetDate second year + 1)
      else none
  | .mondayEaster => some (_easter_sunday year + 1)
  | .fridayEaster => some (_easter_sunday year - 2)

/-! ## Calendar (`fintoolsom/dates/calendars.py`)

`Calendar` is a `@dataclass(slots=True)`: only the declared fields exist as
slots, there is no instance `__dict__`, and reading or writing any other
attribute name raises `AttributeError`.  `__post_init__` assigns the
undeclared `_add_one_day_week_days` / `_substract_one_day_week_days`, so
every `Calendar` construction raises, and the business-day methods read
attributes that can exist on no instance.  The `Calendar` record below
models the *would-be* instance contents (the declared fields); the
per-method definitions model the method bodies over such a record, with the
slot failures made explicit. -/

/-- Attribute access on a `@dataclass(slots=True)` instance: names outside
the declared fields raise `AttributeError` (reads and writes alike). -/
def pySlotAttr (slots : List String) (cls attr : String) : Except String Unit :=
  if attr ∈ slots then .ok ()
  else .error ("AttributeError: " ++ cls ++ " object has no attribute " ++ attr)

/-- The declared (slotted) fields of `Calendar`. -/
def calendarFieldSlots : List String := ["holiday_rules", "custom_holidays"]

structure Calendar where
  holiday_rules : List HolidayRule := []
  custom_holidays : List Int := []
deriving DecidableEq, Repr

/-- `Calendar._add_one_day_week_days` (set in `__post_init__`). -/
def _add_one_day_week_days : List Int := [0, 1, 2, 3, 6]

/-- `Calendar._substract_one_day_week_days` (set in `__post_init__`). -/
def _substract_one_day_week_days : List Int := [1, 2, 3, 4, 5]

/-- `Calendar.__init__` + `__post_init__`: the generated `__init__` stores the
two declared fields (the source's default for `custom_holidays` in the
factory functions is `None`, hence the `Option`), then `__post_init__`
assigns `self._add_one_day_week_days` — not a declared field of the
`slots=True` dataclass — so every construction raises `AttributeError`.
The final `.ok` branch (the would-be instance) is unreachable. -/
def calendarInit (holiday_rules : List HolidayRule) (custom_holidays : Option (List Int)) :
    Except String Calendar :=
  match pySlotAttr calendarFieldSlots "Calendar" "_add_one_day_week_days" with
  | .error e => .error e
  | .ok _ =>
    match pySlotAttr calendarFieldSlots "Calendar" "_substract_one_day_week_days" with
    | .error e => .error e
    | .ok _ => .ok ⟨holiday_rules, custom_holidays.getD []⟩

/-- `Calendar.is_holiday(date)`: membership in `custom_holidays`, else
`any(date == rule.get_date(date.year) for rule in self.holiday_rules)`
(a rule returning `None` compares unequal to any date). -/
def is_holiday (cal : Calendar) (t : Int) : Bool :=
  if t ∈ cal.custom_holidays then true
  else cal.holiday_rules.any (fun rule => ruleGetDate rule (dateYear t) = some t)

/-- Python `list.sort` on `customs + rule_holidays` where `rule_holidays` may
contain `None`: CPython raises `TypeError` comparing `None` with a date, which
happens exactly when the (de-duplicated) list has a `None` and at least two
elements; otherwise the sort succeeds. -/
def pySortDatesWithNone (l : List (Option Int)) : Except String (List (Option Int)) :=
  if none ∈ l ∧ 2 ≤ l.length then
    .error "TypeError: not supported between instances of NoneType and datetime.date"
  else
    .ok ((sortByKey (fun x => x) (l.filterMap id)).map some)

/-- `Calendar.get_holidays(year)`:
`customs + [r.get_date(year) for r in rules]`, de-duplicated via `set`, then
sorted in place (which raises when a `None` from a rule meets a date). -/
def get_holidays (cal : Calendar) (year : Int) : Except String (List (Option Int)) :=
  let customs := (cal.custom_holidays.filter (fun ch => dateYear ch = year)).map some
  let rule_holidays := cal.holiday_rules.map (fun r => ruleGetDate r year)
  let year_holidays := (customs ++ rule_holidays).dedup
  pySortDatesWithNone year_holidays

/-- The holiday-skip loop of `add_business_day` / `subtract_business_day`
(`while self.is_holiday(d): d += step`), with explicit fuel standing for the
unbounded Python loop (`none` = fuel exhausted; never hit in the theorems). -/
def holidaySkipLoop (cal : Calendar) (step : Int) : Nat → Int → Option Int
  | 0, _ => none
  | fuel + 1, t => if is_holiday cal t then holidaySkipLoop cal step fuel (t + step) else some t

/-- `Calendar.add_business_day(t)`: the body's first read,
`self._add_one_day_week_days`, names a slot that exists on no instance, so
the method can only raise `AttributeError`.  The unreachable continuation
transcribes the rest of the body, using the weekday set the constructor
meant to store. -/
def add_business_day (cal : Calendar) (t : Int) : Except String (Option Int) :=
  match pySlotAttr calendarFieldSlots "Calendar" "_add_one_day_week_days" with
  | .error e => .error e
  | .ok _ =>
    let wd := pyWeekday t
    let following := t + (if wd ∈ _add_one_day_week_days then 1 else if wd = 4 then 3 else 2)
    .ok (holidaySkipLoop cal 1 1000 following)

/-- `Calendar.subtract_business_day(t)`: same slot defect via
`self._substract_one_day_week_days`. -/
def subtract_business_day (cal : Calendar) (t : Int) : Except String (Option Int) :=
  match pySlotAttr calendarFieldSlots "Calendar" "_substract_one_day_week_days" with
  | .error e => .error e
  | .ok _ =>
    let wd := pyWeekday t
    let preceding := t - (if wd ∈ _substract_one_day_week_days then 1 else if wd = 0 then 3 else 2)
    .ok (holidaySkipLoop cal (-1) 1000 preceding)

/-- Weekend predicate with the default Saturday/Sunday weekend, as used by the
spec's wording (the source has no such helper). -/
def isWeekendDay (t : Int) : Bool := pyWeekday t = 5 ∨ pyWeekday t = 6

/-- The `rules` list built inside
`get_cl_calendar(custom_holidays=None, add_banking_holiday=True)` (with the
banking-holiday rule appended). -/
def get_cl_calendar_rules : List HolidayRule := [
      .monthDay ⟨1, 1, false⟩,
      .fridayEaster,
      .monthDay ⟨5, 1, false⟩,
      .monthDay ⟨5, 21, false⟩,
      .monthDay ⟨6, 20, false⟩,
      .monthDay ⟨6, 29, true⟩,
      .monthDay ⟨7, 16, false⟩,
      .monthDay ⟨8, 15, false⟩,
      .monthDay ⟨9, 18, false⟩,
      .monthDay ⟨9, 19, false⟩,
      .consecutiveHolidaySandwich ⟨9, 18, false⟩ ⟨9, 19, false⟩,
      .monthDay ⟨10, 12, true⟩,
      .monthDay ⟨10, 31, false⟩,
      .monthDay ⟨11, 1, false⟩,
      .monthDay ⟨12, 8, false⟩,
      .monthDay ⟨12, 25, false⟩,
      .monthDay ⟨12, 31, false⟩]

/-- `get_cl_calendar()`: constructs `Calendar(holiday_rules=rules,
custom_holidays=None)`, which raises in `__post_init__`. -/
def get_cl_calendar : Except String Calendar :=
  calendarInit get_cl_calendar_rules none

/-! ## Python `round` (round-half-to-even), exact on `ℚ` and idealized on `ℝ` -/

/-- Round-half-to-even of a rational to an integer. -/
def rheQ (x : ℚ) : Int :=
  if Int.fract x < 1/2 then ⌊x⌋
  else if 1/2 < Int.fract x then ⌊x⌋ + 1
  else if Even ⌊x⌋ then ⌊x⌋ else ⌊x⌋ + 1

/-- Python `round(x, n)` on rationals. -/
def roundQ (n : Nat) (x : ℚ) : ℚ := (rheQ (x * 10 ^ n) : ℚ) / 10 ^ n

/-- Round-half-to-even of a real to an integer. -/
noncomputable def rheR (x : ℝ) : Int :=
  if Int.fract x < 1/2 then ⌊x⌋
  else if 1/2 < Int.fract x then ⌊x⌋ + 1
  else if Even ⌊x⌋ then ⌊x⌋ else ⌊x⌋ + 1

/-- Python `round(x, n)` on reals. -/
noncomputable def roundR (n : Nat) (x : ℝ) : ℝ := (rheR (x * 10 ^ n) : ℝ) / 10 ^ n

/-! ## The manual correction loop of `Bond.get_irr_from_amount`
(`fintoolsom/fixedIncome/Bonds.py`, lines 432-450)

The loop is shallowly embedded parametrically in the amount objective
`f : ℚ → ℚ` (in the source, `f` is
`lambda v: self._get_amount_value_rate_value(t, v, irr_rate_convention, fx)`);
its control flow depends on `f` only through comparisons with the target
amount, which floats and exact rationals decide identically. -/

/-- `1 if value > amount else -1` (the `direction` computation). -/
def amountDirection (amount value : ℚ) : ℚ := if amount < value then 1 else -1

/-- The `while True:` body of the correction loop.  The Python loop raises
when its step counter (incremented only on non-flip iterations) reaches 30;
with entry counter 0 that allows `fuel + 1` probes when called with
`fuel = 29`. -/
def correctionLoop (f : ℚ → ℚ) (amount direction : ℚ) :
    Nat → ℚ → ℚ → Except String ℚ
  | fuel, rate_value, newton_result =>
    let rate_value1 := rate_value + 0.000001 * direction
    let newton_result_i := f rate_value1
    let direction_i := amountDirection amount newton_result_i
    if direction_i ≠ direction then
      if |newton_result_i - amount| > |newton_result - amount| then
        .ok (rate_value1 - 0.000001 * direction)
      else
        .ok rate_value1
    else
      match fuel with
      | 0 => .error "Failed to adjust to amount."
      | fuel2 + 1 => correctionLoop f amount direction fuel2 rate_value1 newton_result_i

/-- The tail of `Bond.get_irr_from_amount` after the Newton solve: round the
Newton result to 6 decimals, then (if the amount is not matched exactly) run
the unidirectional correction loop with at most 30 probes. -/
def get_irr_from_amount_tail (f : ℚ → ℚ) (amount irr_value : ℚ) : Except String ℚ :=
  let rate_value := roundQ 6 irr_value
  let newton_result := f rate_value
  if newton_result = amount then .ok rate_value
  else correctionLoop f amount (amountDirection amount newton_result) 29 rate_value newton_result

/-- The `k`-th probed rate value: `rate_value` plus `k` steps of
`0.000001 * direction`. -/
def probedRate (rate_value direction : ℚ) (k : Nat) : ℚ :=
  rate_value + k * (0.000001 * direction)

/-! ## Coupons and residual validation (`fintoolsom/fixedIncome/Bonds.py`) -/

/-- `Coupon` payload (after `__post_init__` float coercions; `flow` is
derived as `amortization + interest`). -/
structure Coupon where
  amortization : ℚ
  interest : ℚ
  residual : ℚ
  start_date : Int
  end_date : Int
deriving DecidableEq, Repr

/-- `Coupon.flow` -/
def Coupon.flow (c : Coupon) : ℚ := c.amortization + c.interest

/-- `Coupon.validate_inputs` (the type checks are statically true in the
model; the value checks are translated). -/
def Coupon.validate_inputs (c : Coupon) : Except String Unit := do
  if c.residual ≤ 0 then
    throw "ValueError: Residual must be greater than 0."
  if c.residual < c.amortization then
    throw "ValueError: Amortization cannot be greater than residual."
  if c.end_date ≤ c.start_date then
    throw "ValueError: Start date must be earlier than end date."
  pure ()

/-- The residual recomputed for coupon `i` of a sorted coupon list:
`sum(self.coupons[j].amortization for j in range(i, len(self.coupons)))`. -/
def calculatedResidual (coupons : List Coupon) (i : Nat) : ℚ :=
  ((coupons.drop i).map Coupon.amortization).sum

/-- The declared (slotted) fields of `Coupons`, which is also a
`@dataclass(slots=True)`. -/
def couponsFieldSlots : List String := ["coupons", "check_residuals"]

/-- `Coupons` would-be state after `__post_init__` (coupons sorted by start
date).  No such instance can actually be built: see `couponsInit`. -/
structure Coupons where
  coupons : List Coupon
  check_residuals : Bool
deriving DecidableEq, Repr

/-- The sorting step of `Coupons.sort` (stable sort by `start_date`). -/
def couponsSort (lst : List Coupon) : List Coupon :=
  sortByKey (fun c => c.start_date) lst

/-- `Coupons.__init__` + `__post_init__`: store the declared fields, then
`sort()`.  `sort` evaluates `self.coupons[0].start_date` — `IndexError` on an
empty list — and assigns it to `self.first_start_date`, which is not a
declared field of the `slots=True` dataclass, so on a nonempty list the
assignment raises `AttributeError`.  Every construction raises; the rest of
`sort` (`self.flows`, `self.end_dates`) and the optional
`validate_residuals()` call are unreachable dead code and are not
transcribed. -/
def couponsInit (lst : List Coupon) (check_residuals : Bool) : Except String Coupons :=
  let sorted := couponsSort lst
  if sorted.isEmpty then
    .error "IndexError: list index out of range"
  else
    match pySlotAttr couponsFieldSlots "Coupons" "first_start_date" with
    | .error e => .error e
    | .ok _ => .ok ⟨sorted, check_residuals⟩

/-! ## Zero-coupon curve state layer (`fintoolsom/rates/ZeroCouponCurve.py`)

The mutation claims depend on the curve *state* (the curve points and the
`_cashed_dfs` memo dictionary) and on what the mutating methods do to it.
Every mutating method funnels through `_complete_curve`, whose closing
interpolator construction raises `TypeError` (the defect settled under C7),
so each mutation is modelled as the partially mutated state paired with the
exception outcome of the method call. -/

/-- `ZeroCouponCurvePoint`: (date, rate); only the rate value participates in
the cache key and the mutations. -/
structure CurvePoint where
  date : Int
  rate_value : ℚ
deriving DecidableEq, Repr

/-- The cache key of `get_dfs`: the source concatenates
`str(self.dates) + str(self.rates_values) + str(dates_t)`; `str` is injective
on those lists of dates/floats and the bracketed formats make the
concatenation parseable, so the key is modelled as the triple itself. -/
structure DfsKey where
  dates : List Int
  rates_values : List ℚ
  query : List Int
deriving DecidableEq, Repr

/-- `ZeroCouponCurve` mutable state: the anchor points and the
`_cashed_dfs` memo (the derived arrays `dates`, `rates_values`,
`_str_dates_rates` are recomputed by `_complete_curve` from `curve_points`
and are modelled as derived functions). -/
structure CurveState where
  curve_date : Int
  curve_points : List CurvePoint
  cashed_dfs : List (DfsKey × List ℚ)
deriving DecidableEq, Repr

/-! ### `ZeroCouponCurve.__post_init__` interpolator construction (for C7)

`InterpolationModel` declares `x_values` and `y_values` with
`field(init=False)`, so the generated `__init__` of every subclass accepts
only the `extrapolate` flag; `_complete_curve` nevertheless calls
`interpolator_cls(self.yfs, self.rates_values)` with two positional
arguments.  The numeric derivations preceding that call (sorting, day
counts, wealth factors) are pure and cannot raise, so they are elided from
the `Except` model. -/

inductive InterpolationType where
  | Linear
  | CubicSpline
  | LogLinear
  | NelsonSiegelSvensson
deriving DecidableEq, Repr

/-- Which dataclass fields of `InterpolationModel` participate in the
generated `__init__` (`x_values`, `y_values`, `extrapolate`,
`_extrapolate_arg` in declaration order). -/
def interpolationModelFieldInInit : List Bool := [false, false, true, false]

/-- Arity of the generated `InterpolationModel.__init__` (excluding `self`). -/
def interpolationModelInitArity : Nat :=
  (interpolationModelFieldInInit.filter id).length

/-- Python call of a dataclass constructor with `n` positional arguments. -/
def pyDataclassCall (arity n : Nat) : Except String Unit :=
  if n ≤ arity then .ok ()
  else .error "TypeError: __init__ takes from 1 to 2 positional arguments but 3 were given"

/-- `_complete_curve`: re-sort the points by date and re-derive
`self.dates`, `self.rates_values`, `self.yfs`, `_str_dates_rates` (pure,
cannot raise), then rebuild the interpolators —
`rate_interpolator_cls(self.yfs, self.rates_values)` with 2 positional
arguments against the unary generated `__init__` — so the method mutates the
stored points and *then* raises `TypeError`.  The result is the partially
mutated state paired with the exception outcome.  `_cashed_dfs` is never
touched on any path. -/
def _complete_curve (st : CurveState) : CurveState × Except String Unit :=
  let st1 := { st with curve_points := sortByKey (fun cp => cp.date) st.curve_points }
  match pyDataclassCall interpolationModelInitArity 2 with
  | .error e => (st1, .error e)
  | .ok _ =>
    match pyDataclassCall interpolationModelInitArity 2 with
    | .error e => (st1, .error e)
    | .ok _ => (st1, .ok ())

/-- `self.dates` after `_complete_curve`. -/
def curveDates (st : CurveState) : List Int :=
  (sortByKey (fun cp => cp.date) st.curve_points).map CurvePoint.date

/-- `self.rates_values` after `_complete_curve`. -/
def curveRatesValues (st : CurveState) : List ℚ :=
  (sortByKey (fun cp => cp.date) st.curve_points).map CurvePoint.rate_value

/-- `ZeroCouponCurve.delete_point(date)`: filter the points, then
`_complete_curve` (which raises after storing the filtered, sorted
points). -/
def delete_point (st : CurveState) (date : Int) : CurveState × Except String Unit :=
  _complete_curve { st with curve_points := st.curve_points.filter (fun cp => cp.date ≠ date) }

/-- `ZeroCouponCurve.add_point(curve_point)`: `ValueError` for a date before
the curve date; otherwise `self.delete_point(...)` raises first, so the
append and second `_complete_curve` are unreachable. -/
def add_point (st : CurveState) (cp : CurvePoint) : CurveState × Except String Unit :=
  if cp.date < st.curve_date then
    (st, .error "ValueError: Cannot add point with date before curve date.")
  else
    let r1 := delete_point st cp.date
    match r1.2 with
    | .error e => (r1.1, .error e)
    | .ok _ => _complete_curve { r1.1 with curve_points := r1.1.curve_points ++ [cp] }

/-- `ZeroCouponCurve.parallel_shift(shift_in_bps)`: add `bps / 10_000` to
every anchor rate value, then `_complete_curve` (which raises after storing
the shifted, sorted points). -/
def parallel_shift (st : CurveState) (shift_in_bps : ℚ) : CurveState × Except String Unit :=
  _complete_curve
    { st with curve_points :=
        st.curve_points.map (fun cp => { cp with rate_value := cp.rate_value + shift_in_bps / 10000 }) }

/-! ### Method table of `ZeroCouponCurve` (for `Bond.get_z_spread`)

`Bond.get_z_spread`'s trial function calls
`zc_curve.parallel_bump_rates_bps(bp_bump)`; attribute lookup on a
`ZeroCouponCurve` instance resolves against the class's method table, which
is transcribed below from the class body. -/

def zeroCouponCurveMethodNames : List String :=
  ["__post_init__", "copy", "_set_df_curve", "forward_curve", "get_days",
   "get_yfs", "_complete_curve", "delete_point", "add_point", "get_df",
   "get_dfs", "get_df_fwd", "get_dfs_fwds", "get_wf", "get_wfs", "get_wf_fwd",
   "get_wfs_fwds", "get_forward_rates", "get_forward_rates_values",
   "get_zero_rates", "get_zero_rates_values", "parallel_shift"]

/-- Python attribute lookup + call of a 1-float-argument curve method:
a missing attribute raises `AttributeError`; `parallel_shift` is the only
state-mutating float-argument method and dispatches to its model (whose
exception propagates), the others are state-preserving reads. -/
def pyCallCurveMethod (st : CurveState) (name : String) (arg : ℚ) :
    Except String CurveState :=
  if name = "parallel_shift" then
    match (parallel_shift st arg).2 with
    | .error e => .error e
    | .ok _ => .ok (parallel_shift st arg).1
  else if name ∈ zeroCouponCurveMethodNames then .ok st
  else .error ("AttributeError: ZeroCouponCurve object has no attribute " ++ name)

/-- The trial function `bp_bump_curve_value(bp_bump)` inside
`Bond.get_z_spread`: bump the curve, value the bond on it (`pv`, abstract
here), bump back, return the difference to the flat-rate value.  `newton`
evaluates this at the initial guess first, so its exception is the result of
every `get_z_spread` call. -/
def bp_bump_curve_value (pv : CurveState → ℚ) (irr_value : ℚ)
    (st : CurveState) (bp_bump : ℚ) : Except String (CurveState × ℚ) := do
  let st ← pyCallCurveMethod st "parallel_bump_rates_bps" bp_bump
  let bumped_val := pv st
  let st ← pyCallCurveMethod st "parallel_bump_rates_bps" (-bp_bump)
  pure (st, bumped_val - irr_value)

/-! ### `ZeroCouponCurve.__post_init__` (for C7) -/

/-- `ZeroCouponCurve.__post_init__` on the `curve_points` path, up to the
first raising statement: reject `Linear` df-interpolation, read
`curve_points[0]`, then `_complete_curve` constructs
`rate_interpolator_cls(self.yfs, self.rates_values)` and
`df_interpolator_cls(self.yfs, self.dfs)` — both with 2 positional
arguments. -/
def zeroCouponCurveInit (curve_date : Int) (curve_points : List CurvePoint)
    (df_interpolation_type : InterpolationType) : Except String CurveState :=
  if df_interpolation_type = InterpolationType.Linear then
    .error "ValueError: InterpolationType value Linear not admitted for df_interpolation_type."
  else if curve_points.isEmpty then
    .error "IndexError: list index out of range"
  else
    match pyDataclassCall interpolationModelInitArity 2 with
    | .error e => .error e
    | .ok _ =>
      match pyDataclassCall interpolationModelInitArity 2 with
      | .error e => .error e
      | .ok _ =>
        .ok { curve_date := curve_date,
              curve_points := sortByKey (fun cp => cp.date) curve_points,
              cashed_dfs := [] }

/-! ## Rates (`fintoolsom/rates/Rates.py`), real-valued -/

inductive InterestConvention where
  | Linear
  | Compounded
  | Exponential
deriving DecidableEq, Repr

/-- `RateConvention` (InterestConvention, DayCountConvention,
time_fraction_base). -/
structure RateConvention where
  interest_convention : InterestConvention := .Compounded
  day_count_convention : DayCountConvention := .Actual
  time_fraction_base : Int := 365
deriving DecidableEq, Repr

/-- `get_time_fraction(start, end, dcc, base)` = `day_count / base`, as a
real. -/
noncomputable def timeFraction (conv : RateConvention) (start_date end_date : Int) : ℝ :=
  (get_day_count start_date end_date conv.day_count_convention : ℝ)
    / (conv.time_fraction_base : ℝ)

/-- `Rate`: a rate convention and a value. -/
structure Rate where
  rate_convention : RateConvention
  rate_value : ℝ

/-- The `_wf_router` dispatch of `Rate.get_wealth_factor`:
`_get_wf_from_linear_rate` / `_get_wf_from_compounded_rate` /
`_get_wf_from_exponential_rate` applied to the time fraction. -/
noncomputable def wfFromRateValue : InterestConvention → ℝ → ℝ → ℝ
  | .Linear, rate_value, time_fraction => 1 + rate_value * time_fraction
  | .Compounded, rate_value, time_fraction => (1 + rate_value) ^ time_fraction
  | .Exponential, rate_value, time_fraction => Real.exp (rate_value * time_fraction)

/-- `Rate.get_wealth_factor(start_date, end_date)`. -/
noncomputable def Rate.get_wealth_factor (r : Rate) (start_date end_date : Int) : ℝ :=
  wfFromRateValue r.rate_convention.interest_convention r.rate_value
    (timeFraction r.rate_convention start_date end_date)

/-- `Rate.get_discount_factor(start_date, end_date)` = `1 / wealth_factor`. -/
noncomputable def Rate.get_discount_factor (r : Rate) (start_date end_date : Int) : ℝ :=
  1 / r.get_wealth_factor start_date end_date

/-- `Rate.get_accrued_interest(n, start_date, end_date)` =
`n * (wealth_factor - 1)`. -/
noncomputable def Rate.get_accrued_interest (r : Rate) (n : ℝ) (start_date end_date : Int) : ℝ :=
  n * (r.get_wealth_factor start_date end_date - 1)

/-- Whether a wealth factor computed by `Rate.get_wealth_factor` is a numpy
float: `_get_wf_from_exponential_rate` uses `np.exp`, which returns
`np.float64`, while the Linear and Compounded formulas are plain Python
float arithmetic.  The distinction matters only at a zero divisor:
`np.float64 / 0.0` yields `inf` with a `RuntimeWarning`, whereas Python
`float / 0.0` raises `ZeroDivisionError`. -/
def pyWfIsNumpy : InterestConvention → Bool
  | .Exponential => true
  | _ => false

/-- The `_rate_router` inverse maps of `Rate.get_rate_from_wf` (scalar path):
`(wf-1)/t`, `wf**(1/t) - 1`, `np.log(wf)/t`, applied to
`t = get_time_fraction(...) = day_count / time_fraction_base`.

Raising behavior, by divisor:
* `time_fraction_base = 0`: the integer division inside `get_time_fraction`
  raises for every interest convention;
* day count `0` (so `t = 0.0`), Compounded target: the Python-int literal in
  `1 / time_fraction` raises `ZeroDivisionError` whatever the type of `wf`;
* day count `0`, Linear target: `(wf - 1) / 0.0` raises exactly when `wf` is
  a Python float (`wf_is_np = false`); a numpy `wf` yields `inf` silently;
* day count `0`, Exponential target: `np.log(wf)` is `np.float64` for either
  input type, so `np.log(wf) / 0.0` never raises.

On the non-raising zero-divisor paths the `.ok` payload is the Lean real
`x / 0 = 0`, a stand-in for the IEEE `inf`/`nan` the code produces; no
theorem below evaluates those payloads. -/
noncomputable def rateValueFromWf (conv : RateConvention) (wf : ℝ) (wf_is_np : Bool)
    (start_date end_date : Int) : Except String ℝ :=
  if conv.time_fraction_base = 0 then
    .error "ZeroDivisionError: division by zero"
  else
    let t := timeFraction conv start_date end_date
    match conv.interest_convention with
    | .Linear =>
      if get_day_count start_date end_date conv.day_count_convention = 0
          ∧ wf_is_np = false then
        .error "ZeroDivisionError: float division by zero"
      else .ok ((wf - 1) / t)
    | .Compounded =>
      if get_day_count start_date end_date conv.day_count_convention = 0 then
        .error "ZeroDivisionError: float division by zero"
      else .ok (wf ^ (1 / t) - 1)
    | .Exponential => .ok (Real.log wf / t)

/-- `Rate.get_rate_from_wf(wf, start_date, end_date, rate_convention)`
(scalar path); `wf_is_np` records whether the caller passes a numpy
float. -/
noncomputable def get_rate_from_wf (wf : ℝ) (wf_is_np : Bool) (start_date end_date : Int)
    (rate_convention : RateConvention) : Except String Rate :=
  match rateValueFromWf rate_convention wf wf_is_np start_date end_date with
  | .error e => .error e
  | .ok v => .ok ⟨rate_convention, v⟩

/-- `Rate.convert_rate_conventions(rate_convention, start_date, end_date)`:
keep the current wealth factor over the date pair, re-derive the value under
the new convention (returned as the updated rate object).  The wealth factor
is numpy exactly when the source rate's interest convention is
Exponential. -/
noncomputable def convert_rate_conventions (r : Rate) (rate_convention : RateConvention)
    (start_date end_date : Int) : Except String Rate :=
  let current_wf := r.get_wealth_factor start_date end_date
  get_rate_from_wf current_wf (pyWfIsNumpy r.rate_convention.interest_convention)
    start_date end_date rate_convention

/-! ## Bond valuation (`fintoolsom/fixedIncome/Bonds.py`), real-valued -/

/-- `Bond` state after `__init__` (coupons already re-based to 100). -/
structure Bond where
  coupons : List Coupon
  notional : ℚ
  tera : Rate

/-- `Coupons.get_current_coupon(t)`: the first coupon with
`start_date <= t < end_date`, else `None`. -/
def get_current_coupon (coupons : List Coupon) (t : Int) : Option Coupon :=
  coupons.find? (fun c => c.start_date ≤ t ∧ t < c.end_date)

/-- `Coupon.get_accrued_interest(t, tera)` =
`tera.get_accrued_interest(self.residual, self.start_date, t)`. -/
noncomputable def couponAccruedInterest (c : Coupon) (t : Int) (tera : Rate) : ℝ :=
  tera.get_accrued_interest (c.residual : ℝ) c.start_date t

/-- `Bond.get_par_value(t, decimals=8)`: current coupon's residual plus its
accrued interest at TERA, rounded; `None.residual` raises
`AttributeError`. -/
noncomputable def get_par_value (b : Bond) (t : Int) : Except String ℝ :=
  match get_current_coupon b.coupons t with
  | none => .error "AttributeError: NoneType object has no attribute residual"
  | some c => .ok (roundR 8 ((c.residual : ℝ) + couponAccruedInterest c t b.tera))

/-- `Bond.get_present_value(t, irr)` =
`sum(flow * irr.get_discount_factor(t, end) for coupons with end > t)`. -/
noncomputable def get_present_value (b : Bond) (t : Int) (irr : Rate) : ℝ :=
  ((b.coupons.filter (fun c => t < c.end_date)).map
    (fun c => (c.flow : ℝ) * irr.get_discount_factor t c.end_date)).sum

/-- `Bond.get_price(t, irr, price_decimals=4, par_value_decimals=8)`:
`(round(100 * pv / par_value, 4), par_value)`; a zero par value raises
`ZeroDivisionError` in the float division. -/
noncomputable def get_price (b : Bond) (t : Int) (irr : Rate) : Except String (ℝ × ℝ) :=
  let pv := get_present_value b t irr
  match get_par_value b t with
  | .error e => .error e
  | .ok par_value =>
    if par_value = 0 then
      .error "ZeroDivisionError: float division by zero"
    else
      .ok (roundR 4 (100 * pv / par_value), par_value)

/-- The pre-rounding invoice amount `self.notional * price * par_value /
10_000.0` of `Bond.get_amount_value`. -/
noncomputable def rawAmount (b : Bond) (price par_value : ℝ) : ℝ :=
  (b.notional : ℝ) * price * par_value / 10000

/-- `Bond.get_amount_value(t, irr, fx=1.0)`: the amount is rounded to 8
decimals when `fx != 1.0`, then scaled by `fx` and rounded to 0 decimals. -/
noncomputable def get_amount_value (b : Bond) (t : Int) (irr : Rate) (fx : ℝ) :
    Except String ℝ :=
  match get_price b t irr with
  | .error e => .error e
  | .ok pp =>
    let amount := rawAmount b pp.1 pp.2
    let amount := if fx ≠ 1 then roundR 8 amount else amount
    .ok (roundR 0 (amount * fx))

/-! # Theorems settling the claims -/

/-! ## C8 — 30E/360 day count -/

/-- C8.  The claim says `_get_day_count_30e` computes
`360*(y2-y1) + 30*(m2-m1) + (min(end.day,30) - min(start.day,30))`.  The
source instead assigns `d2 = min(d1, 30)`, so the day component always
cancels: at `start=2024-01-01`, `end=2024-01-15` the source yields `0` while
the spec formula (`dayCount30eSpec`) yields `14`, and in general the source
result is `360*(y2-y1) + 30*(m2-m1)` with no day contribution at all.  This
contradicts the evident 30E/360 intent (a slip: `min(d1, 30)` for
`min(d2, 30)`), so the claim is right and the code wrong. -/
theorem c8_day_count_30e_drops_day_component :
    _get_day_count_30e (mkDate 2024 1 1) (mkDate 2024 1 15) = 0
  ∧ dayCount30eSpec (mkDate 2024 1 1) (mkDate 2024 1 15) = 14
  ∧ ∀ s e, _get_day_count_30e s e =
      360 * (dateYear e - dateYear s) + 30 * (dateMonth e - dateMonth s) := by
  refine ⟨by decide, by decide, fun s e => ?_⟩
  simp only [_get_day_count_30e]
  omega

/-! ## C9 — a rule yielding no holiday -/

/-- C9.  The consecutive-holiday sandwich rule of the Chilean calendar yields
no holiday in 2023 (neither 2023-09-18 falls on a Tuesday nor 2023-09-19 on
a Thursday), and the spec requires such a rule to contribute no holiday
without crashing.  The natural failing input
`get_cl_calendar().get_holidays(2023)` in fact dies one step earlier:
`get_cl_calendar()` constructs a `Calendar`, and every `Calendar`
construction raises `AttributeError` in `__post_init__` (the `slots=True`
defect settled under C2).  At the level of the method bodies over a would-be
instance holding the Chilean rules, `get_holidays(2023)` puts the rule's
`None` into the list it sorts and CPython raises `TypeError` comparing
`None` with a date — the rule is never filtered out — while `is_holiday`
completes (the `None` merely compares unequal to every date). -/
theorem c9_get_holidays_crashes_when_rule_returns_none :
    ruleGetDate (.consecutiveHolidaySandwich ⟨9, 18, false⟩ ⟨9, 19, false⟩) 2023 = none
  ∧ get_cl_calendar
      = .error "AttributeError: Calendar object has no attribute _add_one_day_week_days"
  ∧ get_holidays ⟨get_cl_calendar_rules, []⟩ 2023 =
      .error "TypeError: not supported between instances of NoneType and datetime.date"
  ∧ is_holiday ⟨get_cl_calendar_rules, []⟩ (mkDate 2023 9 20) = false
  ∧ is_holiday ⟨get_cl_calendar_rules, []⟩ (mkDate 2023 9 18) = true := by
  exact ⟨by decide, rfl, by rfl, by decide, by decide⟩

/-! ## C5 — `get_z_spread` bump/restore -/

/-- C5.  The claim says each trial evaluation of `get_z_spread` bumps the
curve, revalues, and bumps back so the curve is restored each iteration.  In
the source the trial function calls `zc_curve.parallel_bump_rates_bps(...)`,
but `ZeroCouponCurve` defines no such method (the parallel-bump primitive is
named `parallel_shift`), so the very first trial evaluation — and hence every
`get_z_spread` call — raises `AttributeError` before any bump occurs. -/
theorem c5_z_spread_trial_raises_attribute_error :
    ("parallel_bump_rates_bps" ∉ zeroCouponCurveMethodNames)
  ∧ ("parallel_shift" ∈ zeroCouponCurveMethodNames)
  ∧ ∀ (pv : CurveState → ℚ) (irr_value : ℚ) (st : CurveState) (bp_bump : ℚ),
      bp_bump_curve_value pv irr_value st bp_bump =
        .error "AttributeError: ZeroCouponCurve object has no attribute parallel_bump_rates_bps" := by
  refine ⟨by decide, by decide, fun pv irr_value st bp_bump => rfl⟩

/-! ## C7 — flat extrapolation in `get_dfs` -/

/-- C7.  The claim describes `get_dfs` valuing out-of-range queries by the
boundary anchors' own rates.  That branch is unreachable: first, every
`ZeroCouponCurve` construction raises `TypeError`, because
`InterpolationModel` declares `x_values`/`y_values` as `field(init=False)`
(its generated `__init__` takes only `extrapolate`) while `_complete_curve`
calls `interpolator_cls(self.yfs, ...)` with two positional arguments; and
second, even absent that, the clamping branch is guarded by
`extrapolate=False` whereas the flag defaults to `True`. -/
theorem c7_curve_construction_raises_type_error
    (curve_date : Int) (curve_points : List CurvePoint)
    (df_itp : InterpolationType)
    (h1 : df_itp ≠ InterpolationType.Linear) (h2 : curve_points ≠ []) :
    zeroCouponCurveInit curve_date curve_points df_itp =
      .error "TypeError: __init__ takes from 1 to 2 positional arguments but 3 were given" := by
  have h2e : curve_points.isEmpty = false := by
    simpa [List.isEmpty_iff] using h2
  simp [zeroCouponCurveInit, pyDataclassCall, interpolationModelInitArity,
        interpolationModelFieldInInit, h1, h2e]

/-- Witness for C7: a one-point curve with the default (`LogLinear`)
df-interpolation cannot be constructed. -/
theorem c7_witness :
    zeroCouponCurveInit (mkDate 2024 1 1) [⟨mkDate 2024 7 1, 1/20⟩]
        InterpolationType.LogLinear =
      .error "TypeError: __init__ takes from 1 to 2 positional arguments but 3 were given" :=
  c7_curve_construction_raises_type_error _ _ _ (by decide) (by decide)

/-! ## C2 — `is_holiday`, weekends, and the `Calendar` slots defect -/

/-- C2.  The claim describes the weekend behavior of `is_holiday` and the
business-day methods, but `Calendar` is a `@dataclass(slots=True)` whose
`__post_init__` assigns the undeclared attribute `_add_one_day_week_days`:
every `Calendar` construction raises `AttributeError`, and even over a
hypothetical instance both business-day methods begin by reading those same
undeclared attributes, so each call unconditionally raises as well.  At the
level of the (unreachable) `is_holiday` body, only the holiday rules and the
custom holidays are checked — Saturday 2024-01-06 is a weekend yet not a
holiday of the rule-free calendar — so the claimed weekend flagging is also
absent from the body text. -/
theorem c2_calendar_slots_defect :
    (∀ (rules : List HolidayRule) (customs : Option (List Int)),
      calendarInit rules customs
        = .error "AttributeError: Calendar object has no attribute _add_one_day_week_days")
  ∧ (∀ (cal : Calendar) (t : Int),
      add_business_day cal t
          = .error "AttributeError: Calendar object has no attribute _add_one_day_week_days"
        ∧ subtract_business_day cal t
          = .error "AttributeError: Calendar object has no attribute _substract_one_day_week_days")
  ∧ is_holiday ⟨[], []⟩ (mkDate 2024 1 6) = false
  ∧ isWeekendDay (mkDate 2024 1 6) = true := by
  exact ⟨fun rules customs => rfl, fun cal t => ⟨rfl, rfl⟩, by decide, by decide⟩

/-! ## C1 — mutation and the discount-factor cache -/

/-- C1.  The claim says each mutation rebuilds the curve and clears stale
cached discount factors.  In fact no mutating method ever touches
`_cashed_dfs`, and none of them even completes: `parallel_shift`,
`delete_point` and `add_point` all end in `_complete_curve`, whose
interpolator construction raises `TypeError` (the arity defect settled under
C7) after the points have already been mutated, so every mutation call
leaves the state partially mutated, propagates an exception, and keeps all
pre-mutation cache entries intact (`add_point` raises `ValueError` first
when the new date precedes the curve date, also without touching the
cache). -/
theorem c1_mutations_raise_and_never_clear_cache
    (st : CurveState) (bps : ℚ) (d : Int) (cp : CurvePoint) :
    (parallel_shift st bps).2
        = .error "TypeError: __init__ takes from 1 to 2 positional arguments but 3 were given"
  ∧ (parallel_shift st bps).1.cashed_dfs = st.cashed_dfs
  ∧ (delete_point st d).2
        = .error "TypeError: __init__ takes from 1 to 2 positional arguments but 3 were given"
  ∧ (delete_point st d).1.cashed_dfs = st.cashed_dfs
  ∧ (add_point st cp).2
        = .error (if cp.date < st.curve_date
            then "ValueError: Cannot add point with date before curve date."
            else "TypeError: __init__ takes from 1 to 2 positional arguments but 3 were given")
  ∧ (add_point st cp).1.cashed_dfs = st.cashed_dfs := by
  refine ⟨rfl, rfl, rfl, rfl, ?_, ?_⟩
  · simp only [add_point]
    by_cases h : cp.date < st.curve_date
    · rw [if_pos h, if_pos h]
    · rw [if_neg h, if_neg h]
      rfl
  · simp only [add_point]
    by_cases h : cp.date < st.curve_date
    · rw [if_pos h]
    · rw [if_neg h]
      rfl

/-! ## C4 — bond residual validation -/

/-- C4.  The claim says bond construction validates each stored residual
against the recomputed remaining-amortization sum.  No residual validation
can ever run: `Coupons` is a `@dataclass(slots=True)` whose `sort()` (called
from `__post_init__` *before* the optional `validate_residuals()`) assigns
the undeclared attribute `first_start_date`, so constructing a `Coupons`
container from any nonempty coupon list raises `AttributeError` (an empty
list raises `IndexError` evaluating `self.coupons[0]` first), and
`Bond.__init__` can never obtain a `Coupons` argument to validate.  The
concrete list below shows the claim's scenario would otherwise be live:
each coupon individually passes `validate_inputs`, yet the first stored
residual (100) disagrees with the recomputed remaining-amortization sum (80)
far beyond any tolerance — and construction still dies on the slots defect,
not on any validation error. -/
theorem c4_coupons_construction_always_raises :
    ((⟨50, 3, 100, mkDate 2024 1 1, mkDate 2024 7 1⟩ : Coupon).validate_inputs = .ok ()
      ∧ (⟨30, 2, 30, mkDate 2024 7 1, mkDate 2025 1 1⟩ : Coupon).validate_inputs = .ok ())
  ∧ calculatedResidual (couponsSort [⟨50, 3, 100, mkDate 2024 1 1, mkDate 2024 7 1⟩,
        ⟨30, 2, 30, mkDate 2024 7 1, mkDate 2025 1 1⟩]) 0 = 80
  ∧ ((couponsSort [(⟨50, 3, 100, mkDate 2024 1 1, mkDate 2024 7 1⟩ : Coupon),
        ⟨30, 2, 30, mkDate 2024 7 1, mkDate 2025 1 1⟩]).headD ⟨0, 0, 0, 0, 0⟩).residual = 100
  ∧ ∀ (lst : List Coupon) (check_residuals : Bool),
      couponsInit lst check_residuals
        = .error (if (couponsSort lst).isEmpty
            then "IndexError: list index out of range"
            else "AttributeError: Coupons object has no attribute first_start_date") := by
  refine ⟨⟨rfl, rfl⟩, ?_, rfl, ?_⟩
  · have hsort : couponsSort [(⟨50, 3, 100, mkDate 2024 1 1, mkDate 2024 7 1⟩ : Coupon),
        ⟨30, 2, 30, mkDate 2024 7 1, mkDate 2025 1 1⟩]
        = [⟨50, 3, 100, mkDate 2024 1 1, mkDate 2024 7 1⟩,
           ⟨30, 2, 30, mkDate 2024 7 1, mkDate 2025 1 1⟩] := rfl
    rw [calculatedResidual, hsort]
    norm_num
  · intro lst check_residuals
    simp only [couponsInit]
    by_cases h : (couponsSort lst).isEmpty
    · rw [if_pos h, if_pos h]
    · rw [if_neg h, if_neg h]
      rfl

/-! ## C6 — the `get_irr_from_amount` correction loop -/

theorem probedRate_zero (rv direction : ℚ) : probedRate rv direction 0 = rv := by
  simp [probedRate]

theorem probedRate_one (rv direction : ℚ) :
    probedRate rv direction 1 = rv + 0.000001 * direction := by
  simp [probedRate]

theorem probedRate_shift (rv direction : ℚ) (k : Nat) :
    probedRate (rv + 0.000001 * direction) direction k = probedRate rv direction (k + 1) := by
  simp only [probedRate]
  push_cast
  ring

/-- If every one of the first `fuel + 1` probes keeps the initial error
direction, the loop raises. -/
theorem correctionLoop_no_flip (f : ℚ → ℚ) (amount direction : ℚ) :
    ∀ (fuel : Nat) (rv nr : ℚ),
      (∀ k : Nat, 1 ≤ k → k ≤ fuel + 1 →
        amountDirection amount (f (probedRate rv direction k)) = direction) →
      correctionLoop f amount direction fuel rv nr = .error "Failed to adjust to amount." := by
  intro fuel
  induction fuel with
  | zero =>
    intro rv nr h
    have h1 : amountDirection amount (f (rv + 0.000001 * direction)) = direction := by
      simpa [probedRate_one] using h 1 le_rfl le_rfl
    unfold correctionLoop
    rw [if_neg (fun hh => hh h1)]
  | succ fuel2 ih =>
    intro rv nr h
    have h1 : amountDirection amount (f (rv + 0.000001 * direction)) = direction := by
      simpa [probedRate_one] using h 1 le_rfl (by omega)
    unfold correctionLoop
    rw [if_neg (fun hh => hh h1)]
    apply ih
    intro k hk1 hk2
    rw [probedRate_shift]
    exact h (k + 1) (by omega) (by omega)

/-- If the first flip happens at probe `j ≤ fuel + 1`, the loop stops there,
reverting one step exactly when the flipped candidate is farther from the
target than the previous one. -/
theorem correctionLoop_flip (f : ℚ → ℚ) (amount direction : ℚ) :
    ∀ (fuel j : Nat) (rv : ℚ), 1 ≤ j → j ≤ fuel + 1 →
      amountDirection amount (f (probedRate rv direction j)) ≠ direction →
      (∀ k, 1 ≤ k → k < j → amountDirection amount (f (probedRate rv direction k)) = direction) →
      correctionLoop f amount direction fuel rv (f rv) =
        .ok (if |f (probedRate rv direction j) - amount| > |f (probedRate rv direction (j - 1)) - amount|
             then probedRate rv direction (j - 1) else probedRate rv direction j) := by
  intro fuel
  induction fuel with
  | zero =>
    intro j rv h1 hj hflip hbefore
    have hj1 : j = 1 := by omega
    subst hj1
    unfold correctionLoop
    rw [if_pos (by simpa [probedRate_one] using hflip)]
    simp only [probedRate_one, probedRate_zero, Nat.sub_self, add_sub_cancel_right,
               apply_ite (Except.ok (ε := String))]
  | succ fuel2 ih =>
    intro j rv h1 hj hflip hbefore
    by_cases hflip1 : amountDirection amount (f (rv + 0.000001 * direction)) ≠ direction
    · have hj1 : j = 1 := by
        by_contra hne1
        exact hflip1 (by simpa [probedRate_one] using hbefore 1 le_rfl (by omega))
      subst hj1
      unfold correctionLoop
      rw [if_pos hflip1]
      simp only [probedRate_one, probedRate_zero, Nat.sub_self, add_sub_cancel_right,
                 apply_ite (Except.ok (ε := String))]
    · have hnf1 : amountDirection amount (f (rv + 0.000001 * direction)) = direction := by
        by_contra hc
        exact hflip1 hc
      have hj2 : 2 ≤ j := by
        by_contra hc
        have hj1 : j = 1 := by omega
        subst hj1
        exact hflip1 (fun _ => hflip (by simpa [probedRate_one] using hnf1))
      unfold correctionLoop
      rw [if_neg hflip1]
      have hrec := ih (j - 1) (rv + 0.000001 * direction) (by omega) (by omega)
        (by rw [probedRate_shift]; simpa [Nat.sub_add_cancel (by omega : 1 ≤ j)] using hflip)
        (by
          intro k hk1 hk2
          rw [probedRate_shift]
          exact hbefore (k + 1) (by omega) (by omega))
      refine hrec.trans ?_
      rw [probedRate_shift, probedRate_shift, Nat.sub_add_cancel (by omega : 1 ≤ j),
          show j - 1 - 1 + 1 = j - 1 from by omega]

/-- C6.  After Newton's result is rounded to 6 decimals, `get_irr_from_amount`
runs a unidirectional correction loop stepping by `0.000001 * direction`: with
probes `probedRate rv0 direction k`, it raises `ValueError` when none of the
30 allowed probes flips the sign of the amount error, and otherwise stops at
the first flipping probe `j`, returning the previous probe when the flipped
candidate is strictly farther from the target amount and probe `j` itself
otherwise. -/
theorem c6_correction_loop (f : ℚ → ℚ) (amount irr_value rv0 direction : ℚ)
    (hrv : rv0 = roundQ 6 irr_value)
    (hdir : direction = amountDirection amount (f rv0))
    (h0 : f rv0 ≠ amount) :
    ((∀ k, 1 ≤ k → k ≤ 30 → amountDirection amount (f (probedRate rv0 direction k)) = direction) →
      get_irr_from_amount_tail f amount irr_value = .error "Failed to adjust to amount.")
  ∧ (∀ j, 1 ≤ j → j ≤ 30 →
      amountDirection amount (f (probedRate rv0 direction j)) ≠ direction →
      (∀ k, 1 ≤ k → k < j → amountDirection amount (f (probedRate rv0 direction k)) = direction) →
      get_irr_from_amount_tail f amount irr_value =
        .ok (if |f (probedRate rv0 direction j) - amount| > |f (probedRate rv0 direction (j - 1)) - amount|
             then probedRate rv0 direction (j - 1) else probedRate rv0 direction j)) := by
  subst hdir
  subst hrv
  unfold get_irr_from_amount_tail
  rw [if_neg h0]
  constructor
  · intro hnoflip
    exact correctionLoop_no_flip f amount _ 29 _ _ (fun k hk1 hk2 => hnoflip k hk1 (by omega))
  · intro j h1 h30 hflip hbefore
    exact correctionLoop_flip f amount _ 29 j _ h1 (by omega) hflip hbefore

/-- Witness for C6 at concrete inputs: with objective `x ↦ x`, target
`1.5e-6` and Newton result `0`, all 30 probes keep the error sign and the
loop raises; with objective `x ↦ -x`, target `-2.5e-6` and Newton result
`0`, the sign flips at the third probe (equidistant tie, no revert) and the
loop returns `3e-6`. -/
theorem c6_correction_loop_witness :
    get_irr_from_amount_tail (fun x => x) (3/2000000) 0 = .error "Failed to adjust to amount."
  ∧ get_irr_from_amount_tail (fun x => -x) (-25/10000000) 0 = .ok (3/1000000) := by
  have hr : roundQ 6 (0:ℚ) = 0 := by
    norm_num [roundQ, rheQ, Int.fract]
  constructor
  · apply (c6_correction_loop (fun x => x) (3/2000000) 0 0 (-1)
      hr.symm (by norm_num [amountDirection]) (by norm_num)).1
    intro k hk1 hk2
    have hle : probedRate 0 (-1) k ≤ 0 := by
      simp only [probedRate]
      have hk0 : (0:ℚ) ≤ (k:ℚ) := Nat.cast_nonneg k
      nlinarith
    have hnlt : ¬((3:ℚ)/2000000 < probedRate 0 (-1) k) := by
      intro hcon
      linarith
    simp [amountDirection, hnlt]
  · have h := (c6_correction_loop (fun x => -x) (-25/10000000) 0 0 1
      hr.symm (by norm_num [amountDirection]) (by norm_num)).2 3 (by norm_num) (by norm_num)
      (by norm_num [amountDirection, probedRate])
      (by
        intro k hk1 hk2
        interval_cases k <;> norm_num [amountDirection, probedRate])
    refine h.trans ?_
    have e3 : probedRate 0 1 3 = 3/1000000 := by
      norm_num [probedRate]
    have e2 : probedRate 0 1 (3 - 1) = 2/1000000 := by
      norm_num [probedRate]
    rw [e3, e2]
    have hcond : ¬(|-(3/1000000:ℚ) - (-25/10000000)| > |-(2/1000000:ℚ) - (-25/10000000)|) := by
      rw [show -(3/1000000:ℚ) - (-25/10000000) = -(5/10000000) from by norm_num,
          show -(2/1000000:ℚ) - (-25/10000000) = 5/10000000 from by norm_num, abs_neg]
      exact lt_irrefl _
    rw [if_neg hcond]

/-! ## C3 — convention-conversion round trip -/

/-- C3, counterexample.  For `start=2024-01-30 < end=2024-01-31` the 30/360
"U" day count is `0`, so converting a rate to a *Compounded* 30U/360
convention over that pair evaluates `1 / time_fraction` with
`time_fraction = 0.0`; the Python-int literal `1` makes the division raise
`ZeroDivisionError` whatever the type of the wealth factor, so the source
produces no converted rate at all, refuting the claim's "for every date pair
(s, e) with s before e". -/
theorem c3_counterexample :
    mkDate 2024 1 30 < mkDate 2024 1 31
  ∧ convert_rate_conventions ⟨⟨.Linear, .Actual, 365⟩, (1:ℝ)/10⟩ ⟨.Compounded, .Days30U, 360⟩
      (mkDate 2024 1 30) (mkDate 2024 1 31) = .error "ZeroDivisionError: float division by zero" := by
  refine ⟨by decide, ?_⟩
  simp [convert_rate_conventions, get_rate_from_wf, rateValueFromWf, pyWfIsNumpy,
        show get_day_count (mkDate 2024 1 30) (mkDate 2024 1 31) DayCountConvention.Days30U = 0
          from by decide]

/-- C3, amended.  Whenever the target convention's day count over `(s, e)`
is nonzero, its base is nonzero, and the original wealth factor is positive,
convention conversion succeeds and reproduces the original wealth factor
exactly (in real arithmetic) over the same date pair, for all three interest
conventions.  (At a zero day count the outcome is convention- and
type-dependent — the counterexample shows the Compounded target raising —
so the claim's unrestricted quantification over date pairs fails.) -/
theorem c3_amended (r : Rate) (c2 : RateConvention) (s e : Int)
    (hdc : get_day_count s e c2.day_count_convention ≠ 0)
    (hbase : c2.time_fraction_base ≠ 0)
    (hwf : 0 < r.get_wealth_factor s e) :
    ∃ r2 : Rate, convert_rate_conventions r c2 s e = .ok r2
      ∧ r2.get_wealth_factor s e = r.get_wealth_factor s e := by
  have ht : timeFraction c2 s e ≠ 0 := by
    simp only [timeFraction]
    exact div_ne_zero (Int.cast_ne_zero.mpr hdc) (Int.cast_ne_zero.mpr hbase)
  simp only [convert_rate_conventions, get_rate_from_wf, rateValueFromWf]
  rw [if_neg hbase]
  cases hic : c2.interest_convention with
  | Linear =>
    rw [if_neg (show ¬(get_day_count s e c2.day_count_convention = 0
        ∧ pyWfIsNumpy r.rate_convention.interest_convention = false) from
      fun hcon => hdc hcon.1)]
    refine ⟨⟨c2, (r.get_wealth_factor s e - 1) / timeFraction c2 s e⟩, rfl, ?_⟩
    simp only [Rate.get_wealth_factor, hic, wfFromRateValue]
    rw [div_mul_cancel₀ _ ht]
    ring
  | Compounded =>
    rw [if_neg hdc]
    refine ⟨⟨c2, r.get_wealth_factor s e ^ (1 / timeFraction c2 s e) - 1⟩, rfl, ?_⟩
    have hL : Rate.get_wealth_factor
          ⟨c2, r.get_wealth_factor s e ^ (1 / timeFraction c2 s e) - 1⟩ s e
        = wfFromRateValue c2.interest_convention
            (r.get_wealth_factor s e ^ (1 / timeFraction c2 s e) - 1) (timeFraction c2 s e) := rfl
    rw [hL, hic]
    simp only [wfFromRateValue]
    rw [add_sub_cancel, ← Real.rpow_mul hwf.le, one_div_mul_cancel ht, Real.rpow_one]
  | Exponential =>
    refine ⟨⟨c2, Real.log (r.get_wealth_factor s e) / timeFraction c2 s e⟩, rfl, ?_⟩
    simp only [Rate.get_wealth_factor, hic, wfFromRateValue]
    rw [div_mul_cancel₀ _ ht]
    exact Real.exp_log hwf

/-- Witness for C3's amended statement: a Linear Actual/365 rate of 10%
converted to Compounded Actual/360 over (2024-01-01, 2024-01-31). -/
theorem c3_amended_witness :
    ∃ r2 : Rate,
      convert_rate_conventions ⟨⟨.Linear, .Actual, 365⟩, (1:ℝ)/10⟩ ⟨.Compounded, .Actual, 360⟩
        (mkDate 2024 1 1) (mkDate 2024 1 31) = .ok r2
    ∧ r2.get_wealth_factor (mkDate 2024 1 1) (mkDate 2024 1 31)
        = Rate.get_wealth_factor ⟨⟨.Linear, .Actual, 365⟩, (1:ℝ)/10⟩
            (mkDate 2024 1 1) (mkDate 2024 1 31) := by
  apply c3_amended _ _ _ _ (by decide) (by decide)
  have hdc : get_day_count (mkDate 2024 1 1) (mkDate 2024 1 31) DayCountConvention.Actual = 30 := by
    decide
  simp only [Rate.get_wealth_factor, wfFromRateValue, timeFraction, hdc]
  norm_num

/-! ## C10 — `get_amount_value` rounding contract -/

theorem rheR_intCast (k : Int) : rheR ((k : ℝ)) = k := by
  unfold rheR
  rw [Int.fract_intCast, Int.floor_intCast, if_pos (by norm_num)]

theorem roundR_intCast (n : Nat) (k : Int) : roundR n ((k : ℝ)) = (k : ℝ) := by
  unfold roundR
  rw [show ((k : ℝ) * 10 ^ n) = (((k * 10 ^ n : Int)) : ℝ) from by push_cast; ring,
      rheR_intCast]
  push_cast
  exact mul_div_cancel_right₀ _ (by positivity)

theorem roundR_zero_int (x : ℝ) : ∃ k : Int, roundR 0 x = (k : ℝ) := by
  refine ⟨rheR (x * 10 ^ 0), ?_⟩
  unfold roundR
  norm_num

/-- C10.  Whenever `get_amount_value` returns a value, that value is
`round(amount * fx, 0)` — a whole number of currency units — where `amount`
is `notional * price * par_value / 10_000` additionally rounded to 8
decimals exactly when `fx != 1.0`. -/
theorem c10_amount_rounding (b : Bond) (t : Int) (irr : Rate) (fx v : ℝ)
    (h : get_amount_value b t irr fx = .ok v) :
    (∃ k : Int, v = (k : ℝ))
  ∧ ∃ price par_value : ℝ, get_price b t irr = .ok (price, par_value)
      ∧ v = roundR 0 ((if fx ≠ 1 then roundR 8 (rawAmount b price par_value)
                       else rawAmount b price par_value) * fx) := by
  unfold get_amount_value at h
  cases hp : get_price b t irr with
  | error e =>
    rw [hp] at h
    exact Except.noConfusion h
  | ok pp =>
    obtain ⟨price, par_value⟩ := pp
    rw [hp] at h
    have hv : roundR 0 ((if fx ≠ 1 then roundR 8 (rawAmount b price par_value)
        else rawAmount b price par_value) * fx) = v := Except.ok.inj h
    exact ⟨hv ▸ roundR_zero_int _, price, par_value, rfl, hv.symm⟩

/-- Witness for C10: a one-coupon bond at its start date with a zero Linear
IRR and `fx = 2` pays exactly 200. -/
theorem c10_amount_rounding_witness :
    (∃ k : Int, (200:ℝ) = (k : ℝ))
  ∧ ∃ price par_value : ℝ,
      get_price ⟨[⟨100, 0, 100, mkDate 2024 1 1, mkDate 2025 1 1⟩], 100,
          ⟨⟨.Linear, .Actual, 365⟩, (1:ℝ)/10⟩⟩ (mkDate 2024 1 1)
        ⟨⟨.Linear, .Actual, 365⟩, 0⟩ = .ok (price, par_value)
      ∧ (200:ℝ) = roundR 0 ((if (2:ℝ) ≠ 1 then
            roundR 8 (rawAmount ⟨[⟨100, 0, 100, mkDate 2024 1 1, mkDate 2025 1 1⟩], 100,
              ⟨⟨.Linear, .Actual, 365⟩, (1:ℝ)/10⟩⟩ price par_value)
          else rawAmount ⟨[⟨100, 0, 100, mkDate 2024 1 1, mkDate 2025 1 1⟩], 100,
              ⟨⟨.Linear, .Actual, 365⟩, (1:ℝ)/10⟩⟩ price par_value) * 2) := by
  have hr8 : roundR 8 (100:ℝ) = 100 := by
    rw [show (100:ℝ) = ((100 : Int) : ℝ) from by norm_num, roundR_intCast]
  have hr4 : roundR 4 (100:ℝ) = 100 := by
    rw [show (100:ℝ) = ((100 : Int) : ℝ) from by norm_num, roundR_intCast]
  have hr0 : roundR 0 (200:ℝ) = 200 := by
    rw [show (200:ℝ) = ((200 : Int) : ℝ) from by norm_num, roundR_intCast]
  have hwft : Rate.get_wealth_factor ⟨⟨.Linear, .Actual, 365⟩, (1:ℝ)/10⟩
      (mkDate 2024 1 1) (mkDate 2024 1 1) = 1 := by
    simp [Rate.get_wealth_factor, wfFromRateValue, timeFraction,
          show get_day_count (mkDate 2024 1 1) (mkDate 2024 1 1) DayCountConvention.Actual = 0
            from by decide]
  have hwf0 : Rate.get_wealth_factor ⟨⟨.Linear, .Actual, 365⟩, 0⟩
      (mkDate 2024 1 1) (mkDate 2025 1 1) = 1 := by
    simp [Rate.get_wealth_factor, wfFromRateValue, timeFraction]
  have hdf : Rate.get_discount_factor ⟨⟨.Linear, .Actual, 365⟩, 0⟩
      (mkDate 2024 1 1) (mkDate 2025 1 1) = 1 := by
    unfold Rate.get_discount_factor
    rw [hwf0]
    norm_num
  have hacc : couponAccruedInterest ⟨100, 0, 100, mkDate 2024 1 1, mkDate 2025 1 1⟩
      (mkDate 2024 1 1) ⟨⟨.Linear, .Actual, 365⟩, (1:ℝ)/10⟩ = 0 := by
    unfold couponAccruedInterest Rate.get_accrued_interest
    rw [hwft]
    ring
  have hpar : get_par_value ⟨[⟨100, 0, 100, mkDate 2024 1 1, mkDate 2025 1 1⟩], 100,
      ⟨⟨.Linear, .Actual, 365⟩, (1:ℝ)/10⟩⟩ (mkDate 2024 1 1) = .ok 100 := by
    show Except.ok (roundR 8 ((((100:ℚ)) : ℝ)
        + couponAccruedInterest ⟨100, 0, 100, mkDate 2024 1 1, mkDate 2025 1 1⟩
            (mkDate 2024 1 1) ⟨⟨.Linear, .Actual, 365⟩, (1:ℝ)/10⟩)) = Except.ok 100
    rw [hacc]
    rw [show (((100:ℚ) : ℝ) + 0) = (100:ℝ) from by norm_num, hr8]
  have hpv : get_present_value ⟨[⟨100, 0, 100, mkDate 2024 1 1, mkDate 2025 1 1⟩], 100,
      ⟨⟨.Linear, .Actual, 365⟩, (1:ℝ)/10⟩⟩ (mkDate 2024 1 1) ⟨⟨.Linear, .Actual, 365⟩, 0⟩ = 100 := by
    unfold get_present_value
    rw [show List.filter (fun c => decide (mkDate 2024 1 1 < c.end_date))
        (Bond.mk [⟨100, 0, 100, mkDate 2024 1 1, mkDate 2025 1 1⟩] 100
          ⟨⟨.Linear, .Actual, 365⟩, (1:ℝ)/10⟩).coupons
      = [(⟨100, 0, 100, mkDate 2024 1 1, mkDate 2025 1 1⟩ : Coupon)] from rfl]
    simp only [List.map_cons, List.map_nil, List.sum_cons, List.sum_nil]
    rw [hdf]
    rw [show ((⟨100, 0, 100, mkDate 2024 1 1, mkDate 2025 1 1⟩ : Coupon).flow : ℝ)
      = (100:ℝ) from by norm_num [Coupon.flow]]
    ring
  have hprice : get_price ⟨[⟨100, 0, 100, mkDate 2024 1 1, mkDate 2025 1 1⟩], 100,
      ⟨⟨.Linear, .Actual, 365⟩, (1:ℝ)/10⟩⟩ (mkDate 2024 1 1) ⟨⟨.Linear, .Actual, 365⟩, 0⟩
      = .ok (100, 100) := by
    simp only [get_price]
    rw [hpar]
    show (if (100:ℝ) = 0 then _ else _) = _
    rw [if_neg (by norm_num : ¬(100:ℝ) = 0), hpv]
    rw [show (100:ℝ) * 100 / 100 = 100 from by norm_num, hr4]
  have hraw : rawAmount ⟨[⟨100, 0, 100, mkDate 2024 1 1, mkDate 2025 1 1⟩], 100,
      ⟨⟨.Linear, .Actual, 365⟩, (1:ℝ)/10⟩⟩ 100 100 = 100 := by
    unfold rawAmount
    norm_num
  have hEval : get_amount_value ⟨[⟨100, 0, 100, mkDate 2024 1 1, mkDate 2025 1 1⟩], 100,
      ⟨⟨.Linear, .Actual, 365⟩, (1:ℝ)/10⟩⟩ (mkDate 2024 1 1) ⟨⟨.Linear, .Actual, 365⟩, 0⟩ 2
      = .ok 200 := by
    unfold get_amount_value
    rw [hprice]
    show Except.ok (roundR 0 ((if (2:ℝ) ≠ 1 then roundR 8 _ else _) * 2)) = _
    rw [hraw, if_pos (by norm_num : (2:ℝ) ≠ 1), hr8,
        show (100:ℝ) * 2 = 200 from by norm_num, hr0]
  exact c10_amount_rounding _ _ _ _ _ hEval
